import Mathlib

/-!
Verification development for the fravia-mcp query construction core.

Strings are modelled as lists of characters (`Str`).  The definitions below
are shallow embeddings of the TypeScript sources:

* `getActiveFilters`, `defaultConfig` — the configuration module's hygiene
  resolver and its default filter table;
* `NOISE_FILTERS`, `PHASES`, `getPhaseMenu` — the phase catalog;
* `buildQueries` — the query construction engine of the executor module.
-/

set_option maxRecDepth 100000

abbrev Str := List Char

/-- One noise filter with per-engine clause renderings (`FilterConfig`). -/
structure FilterConfig where
  code : Str
  name : Str
  google : Str
  bing : Str
  yandex : Str
  ddg : Str
  deriving DecidableEq

/-- The configuration consumed by the query builder (`FraviaConfig`).
`filters` is an insertion-ordered association list, mirroring the `Map`. -/
structure FraviaConfig where
  version : Str
  filters : List (Str × FilterConfig)
  deriving DecidableEq

/-- The filter table of `getDefaultConfig`: keys "1".."7" in insertion order. -/
def defaultFilters : List (Str × FilterConfig) := [
  (['1'],
    { code := ['s'], name := ("SOCIAL").data
      google := ("-site:pinterest.* -site:twitter.com -site:facebook.com -site:reddit.com -site:quora.com").data
      bing := ("NOT site:pinterest.com NOT site:twitter.com NOT site:facebook.com NOT site:reddit.com").data
      yandex := ("-site:pinterest.com -site:twitter.com -site:facebook.com -site:reddit.com").data
      ddg := ("-site:pinterest.com -site:twitter.com -site:facebook.com -site:reddit.com").data }),
  (['2'],
    { code := ['f'], name := ("FREE_HOSTING").data
      google := ("-site:blogspot.* -site:*.wixsite.com -site:weebly.com -site:tumblr.com -site:*.wordpress.com -site:sites.google.com").data
      bing := ("NOT site:blogspot.com NOT url:wixsite NOT url:weebly NOT site:tumblr.com").data
      yandex := ("-rhost:com.blogspot.* -rhost:com.wixsite.* -rhost:com.weebly.* -site:tumblr.com").data
      ddg := ("-blogspot -wixsite -weebly -tumblr").data }),
  (['3'],
    { code := ['t'], name := ("SPAM_TLDS").data
      google := ("-site:.info -site:.xyz -site:.top -site:.click -site:.online -site:.site -site:.space -site:.icu -site:.buzz").data
      bing := ("NOT site:.info NOT site:.xyz NOT site:.top NOT site:.click NOT site:.online").data
      yandex := ("-domain:info -domain:xyz -domain:top -domain:click -domain:online").data
      ddg := ("-site:.info -site:.xyz -site:.top -site:.click -site:.online").data }),
  (['4'],
    { code := ['u'], name := ("STRUCTURAL_CRUFT").data
      google := ("-inurl:/tag/ -inurl:/category/ -inurl:/page/ -inurl:/archive/ -inurl:?p= -inurl:?page=").data
      bing := ("NOT url:tag NOT url:category NOT url:page NOT url:archive").data
      yandex := ("-inurl:/tag/ -inurl:/category/ -inurl:/page/").data
      ddg := ("-inurl:/tag/ -inurl:/category/ -inurl:/page/").data }),
  (['5'],
    { code := ['c'], name := ("COMMERCIAL").data
      google := ("-\"affiliate\" -\"we may earn\" -\"as an amazon associate\" -inurl:affiliate -inurl:sponsored").data
      bing := ("NOT \"affiliate\" NOT \"we may earn\" NOT inbody:\"taboola\" NOT inbody:\"outbrain\"").data
      yandex := ("-\"affiliate\" -\"we may earn\"").data
      ddg := ("-\"affiliate\" -\"sponsored\" -\"commission\"").data }),
  (['6'],
    { code := ['l'], name := ("LISTICLES").data
      google := ("-intitle:\"top 10\" -intitle:\"top 20\" -intitle:\"best of\" -intitle:\"ultimate guide\"").data
      bing := ("NOT intitle:\"top 10\" NOT intitle:\"best of\"").data
      yandex := ("-title:\"top 10\" -title:\"best of\"").data
      ddg := ("-\"top 10\" -\"best of\" -\"ultimate guide\"").data }),
  (['7'],
    { code := ['a'], name := ("AI_SLOP").data
      google := ("-\"in this comprehensive guide\" -\"let\x27s dive in\" -\"without further ado\" -\"in today\x27s fast-paced world\"").data
      bing := ("NOT \"let\x27s dive in\" NOT \"comprehensive guide\"").data
      yandex := ("-\"let\x27s dive in\" -\"comprehensive guide\"").data
      ddg := ("-\"let\x27s dive in\" -\"without further ado\"").data })
]

/-- The table of `getDefaultConfig`, as used when no configuration file is present. -/
def defaultConfig : FraviaConfig :=
  { version := ("5.0").data, filters := defaultFilters }

/-- The lowercase-letter → filter-number map inside `getActiveFilters`. -/
def codeToNumber : Char → Option Str
  | 's' => some ['1']
  | 'f' => some ['2']
  | 't' => some ['3']
  | 'u' => some ['4']
  | 'c' => some ['5']
  | 'l' => some ['6']
  | 'a' => some ['7']
  | _ => none

/-- Filter numbers relaxed by `codes`: the whole string is lowercased and
each character is looked up in `codeToNumber` (set membership is all that
matters downstream). -/
def relaxedNums (codes : Str) : List Str :=
  (codes.map Char.toLower).filterMap codeToNumber

def validEngines : List Str :=
  [("google").data, ("bing").data, ("yandex").data, ("ddg").data]

/-- Engine-name normalization of `getActiveFilters`. -/
def targetEngine (engine : Str) : Str :=
  let k := engine.map Char.toLower
  if k ∈ validEngines then k else ("google").data

/-- Projection `filter[targetEngine]` for the four hygiene dialects. -/
def filterValue (f : FilterConfig) (engine : Str) : Str :=
  if engine = ("bing").data then f.bing
  else if engine = ("yandex").data then f.yandex
  else if engine = ("ddg").data then f.ddg
  else f.google

/-- The `exclusions` list built inside `getActiveFilters`: clauses of every
filter not relaxed, in filter-table order, empty clauses skipped. -/
def exclusions (codes : Str) (config : FraviaConfig) (engine : Str) : List Str :=
  ((config.filters.filter (fun p => decide (p.1 ∉ relaxedNums codes))).map
    (fun p => filterValue p.2 (targetEngine engine))).filter (fun v => decide (v ≠ []))

/-- Space-join of a clause list (`exclusions.join(" ")`). -/
def joinSpace : List Str → Str
  | [] => []
  | [x] => x
  | x :: y :: xs => x ++ ' ' :: joinSpace (y :: xs)

/-- The resolver `getActiveFilters(codes, config, engine)`: the hygiene clause for the
given engine, from every filter not relaxed by `codes`. -/
def getActiveFilters (codes : Str) (config : FraviaConfig) (engine : Str) : Str :=
  joinSpace (exclusions codes config engine)

/-- A noise-filter menu entry (`NoiseFilter` in the phase catalog). -/
structure NoiseFilter where
  code : Str
  name : Str
  applies : Str
  default : Str
  deriving DecidableEq

/-- A phase identity entry (`Phase`). -/
structure Phase where
  id : Str
  name : Str
  purpose : Str
  deriving DecidableEq

/-- A building block: per-engine template lists in declaration order. -/
structure BuildingBlock where
  code : Char
  name : Str
  description : Str
  engines : List (Str × List Str)
  deriving DecidableEq

/-- A precombination expanding to a set of building-block letters. -/
structure Precombination where
  code : Char
  name : Str
  expandsTo : List Char
  description : Str
  deriving DecidableEq

/-- A `PHASE_MENUS` entry (the menu minus `phase` and `noiseFilters`). -/
structure PhaseMenuData where
  id : Str
  name : Str
  purpose : Str
  buildingBlocks : List BuildingBlock
  precombinations : List Precombination
  engineNuances : List (Str × Str)
  deriving DecidableEq

/-- The full menu returned by `getPhaseMenu`. -/
structure PhaseMenu where
  phase : Int
  id : Str
  name : Str
  purpose : Str
  noiseFilters : List NoiseFilter
  buildingBlocks : List BuildingBlock
  precombinations : List Precombination
  engineNuances : List (Str × Str)
  deriving DecidableEq

/-- The table `NOISE_FILTERS`: the fixed 7-entry global table. -/
def NOISE_FILTERS : List NoiseFilter := [
  { code := ['s'], name := ("Social/Forum").data
    applies := ("Pinterest, Reddit, Quora, Facebook, Twitter").data, default := ("ON").data },
  { code := ['f'], name := ("Free Hosting/Blogs").data
    applies := ("Blogspot, Wix, Weebly, Tumblr, WordPress.com").data, default := ("ON").data },
  { code := ['t'], name := ("Spam TLDs").data
    applies := (".info, .xyz, .top, .click, .online, .site, .space, .icu, .buzz").data, default := ("ON").data },
  { code := ['u'], name := ("Structural Cruft").data
    applies := ("/tag/, /category/, /page/, /archive/, ?p=, ?page=").data, default := ("ON").data },
  { code := ['c'], name := ("Commercial/Affiliate").data
    applies := ("affiliate tracking, \x27we may earn\x27, Amazon associate").data, default := ("ON").data },
  { code := ['l'], name := ("Clickbait/Listicles").data
    applies := ("top 10, best X for Y, ultimate guide").data, default := ("ON").data },
  { code := ['a'], name := ("Generic AI Slop").data
    applies := ("comprehensive guide, let\x27s dive in, without further ado").data, default := ("ON").data }
]

/-- The list `PHASES`: the minimal phase-identity list. -/
def PHASES : List Phase := [
  { id := ("S1").data, name := ("Reconnaissance").data
    purpose := ("Map vocabulary, key actors, obvious authority and garbage").data },
  { id := ("S2").data, name := ("Surface Scan").data
    purpose := ("Clean, high-signal overview of known information").data },
  { id := ("S3").data, name := ("Deep Documents").data
    purpose := ("Extract PDFs, XLS, technical artifacts").data },
  { id := ("S4").data, name := ("Structural Mapping").data
    purpose := ("APIs, subdomains, infrastructure discovery").data },
  { id := ("S5").data, name := ("Filtered High-Signal").data
    purpose := ("Maximum filter strictness, authority sources only").data },
  { id := ("S6").data, name := ("Negative-Space").data
    purpose := ("Failures, contradictions, what\x27s missing").data },
  { id := ("S7").data, name := ("Temporal Evolution").data
    purpose := ("Historical analysis, time-bounded searches").data },
  { id := ("S8").data, name := ("Language/Regional Lateral").data
    purpose := ("Cross-language, regional engine exploration").data }
]

def engGoogle : Str := ("google").data
def engBing : Str := ("bing").data
def engYandex : Str := ("yandex").data
def engArchive : Str := ("archive").data
def engBaidu : Str := ("baidu").data
def engScholar : Str := ("scholar").data

/-- Phase 1 menu data (`PHASE_MENUS[1]`). -/
def phaseMenu1 : PhaseMenuData :=
  { id := ("S1").data
    name := ("Reconnaissance").data
    purpose := ("Map vocabulary, key actors, obvious authority and obvious garbage around the topic.").data
    buildingBlocks := [
      { code := 'A'
        name := ("Broad term+synonym sweep").data
        description := ("Use topic + all synonyms to discover how the web names this thing.").data
        engines := [
          (engGoogle, [("\"<0>\" OR \"<1>\" OR \"<2>\"").data]),
          (engBing, [("\"<0>\" OR \"<1>\" OR \"<2>\"").data]),
          (engYandex, [("\"<0>\" | \"<1>\" | \"<2>\"").data])] },
      { code := 'B'
        name := ("Term + context word").data
        description := ("Pair main subject with generic context (overview, definition) to bias intros.").data
        engines := [
          (engGoogle, [("\"<0>\" \"overview\"").data, ("\"<0>\" \"definition\"").data]),
          (engBing, [("\"<0>\" \"introduction\"").data]),
          (engYandex, [("\"<0>\" & \"what is\"").data])] },
      { code := 'C'
        name := ("Entity co-mention").data
        description := ("Find entities that appear near your subject to identify linked products/companies.").data
        engines := [
          (engGoogle, [("\"<0>\" AROUND(8) \"cloud\"").data, ("\"<0>\" AROUND(8) \"GPU\"").data]),
          (engBing, [("\"<0>\" near:8 \"server\"").data]),
          (engYandex, [("\"<0>\" /5 \"technology\"").data])] }]
    precombinations := [
      { code := 'X', name := ("Standard Recon Combo").data, expandsTo := ['A', 'B']
        description := ("Broad sweep + definition focus").data },
      { code := 'Y', name := ("Infra-tinged Recon").data, expandsTo := ['A', 'C']
        description := ("Broad sweep + entity co-mentions").data }]
    engineNuances := [
      (engGoogle, ("G: Text & entity co-occurrence. AROUND(n) for concept binding. High SEO noise at reconnaissance.").data),
      (engBing, ("G: Alternate view of same space. May surface smaller or regional sites Google buries.").data),
      (engYandex, ("G: Early hint of regional (RU/CIS) coverage. Structural TLD distribution.").data)] }

/-- Phase 2 menu data (`PHASE_MENUS[2]`). -/
def phaseMenu2 : PhaseMenuData :=
  { id := ("S2").data
    name := ("Surface Scan").data
    purpose := ("Obtain a clean, higher-signal overview of what is known about the topic.").data
    buildingBlocks := [
      { code := 'A'
        name := ("Authority overview (edu/gov/org)").data
        description := ("Bias towards official or academic overview material.").data
        engines := [
          (engGoogle, [("\"<0>\" overview OR introduction (site:edu OR site:gov OR site:org)").data]),
          (engBing, [("\"<0>\" (overview OR definition) (site:edu OR site:gov OR site:org)").data]),
          (engYandex, [("\"<0>\" & (overview | introduction) (site:*.edu | site:*.gov)").data])] },
      { code := 'B'
        name := ("Current state / recent developments").data
        description := ("Emphasize recency to see what has changed lately.").data
        engines := [
          (engGoogle, [("\"<0>\" \"current state\" OR \"recent developments\" after:2023-01-01").data]),
          (engBing, [("\"<0>\" \"recent\" OR \"latest\" language:en").data]),
          (engYandex, [("\"<0>\" date:>20230101").data])] },
      { code := 'C'
        name := ("Practice & usage").data
        description := ("How the topic is used in the field (developer docs, guides).").data
        engines := [
          (engGoogle, [("\"<0>\" \"developer guide\" OR \"getting started\"").data]),
          (engBing, [("\"<0>\" \"documentation\" (site:docs.* OR site:developer.*)").data]),
          (engYandex, [("\"<0>\" & (documentation | guide) domain:com").data])] }]
    precombinations := [
      { code := 'X', name := ("Balanced Surface Overview").data, expandsTo := ['A', 'C']
        description := ("Authority + practical usage").data },
      { code := 'Y', name := ("Recency-Biased Overview").data, expandsTo := ['A', 'B']
        description := ("Authority + recent focus").data }]
    engineNuances := [
      (engGoogle, ("G: Will tend to show polished explainers and official docs first once noise is suppressed.").data),
      (engBing, ("G: Good for finding Microsoft/industry whitepapers or niche docs that Google buries.").data),
      (engYandex, ("G: Useful to see whether there is a significant non-English body of overview material.").data)] }

/-- Phase 3 menu data (`PHASE_MENUS[3]`). -/
def phaseMenu3 : PhaseMenuData :=
  { id := ("S3").data
    name := ("Deep Documents").data
    purpose := ("Extract non-HTML artifacts: PDFs, spreadsheets, presentations, data files.").data
    buildingBlocks := [
      { code := 'A'
        name := ("PDF Extraction (All Engines)").data
        description := ("Find PDF documents across all engines.").data
        engines := [
          (engGoogle, [("\"<0>\" filetype:pdf").data]),
          (engBing, [("\"<0>\" contains:pdf").data]),
          (engYandex, [("\"<0>\" mime:pdf").data])] },
      { code := 'B'
        name := ("Data/Config Files (XLS/JSON)").data
        description := ("Find spreadsheets, data files, configuration files.").data
        engines := [
          (engGoogle, [("\"<0>\" (filetype:xls OR filetype:xlsx OR filetype:json)").data]),
          (engBing, [("\"<0>\" contains:xlsx").data]),
          (engYandex, [("\"<0>\" (mime:xls | mime:json)").data])] },
      { code := 'C'
        name := ("Academic PDFs Only").data
        description := ("PDFs from academic sources.").data
        engines := [
          (engGoogle, [("\"<0>\" filetype:pdf site:edu").data]),
          (engBing, [("\"<0>\" contains:pdf site:edu").data]),
          (engYandex, [("\"<0>\" mime:pdf site:*.edu").data])] },
      { code := 'D'
        name := ("Presentations").data
        description := ("PowerPoint and presentation files.").data
        engines := [
          (engGoogle, [("\"<0>\" (filetype:ppt OR filetype:pptx)").data]),
          (engBing, [("\"<0>\" contains:pptx").data]),
          (engYandex, [("\"<0>\" mime:ppt").data])] }]
    precombinations := [
      { code := 'X', name := ("Full Document Sweep").data, expandsTo := ['A', 'B', 'D']
        description := ("All document types").data },
      { code := 'Y', name := ("Academic Focus").data, expandsTo := ['A', 'C']
        description := ("PDFs with academic bias").data }]
    engineNuances := [
      (engGoogle, ("G: Text inside PDF searchable. filetype: operator.").data),
      (engBing, ("G: contains: finds pages hosting files.").data),
      (engYandex, ("G: mime: for raw file type matching.").data)] }

/-- Phase 4 menu data (`PHASE_MENUS[4]`). -/
def phaseMenu4 : PhaseMenuData :=
  { id := ("S4").data
    name := ("Structural Mapping").data
    purpose := ("Map digital layout: APIs, subdomains, infrastructure.").data
    buildingBlocks := [
      { code := 'A'
        name := ("Subdomain Map").data
        description := ("Discover subdomains of target domain.").data
        engines := [
          (engYandex, [("rhost:com.<0>.*").data]),
          (engBing, [("site:<0>").data]),
          (engGoogle, [("site:*.<0>").data])] },
      { code := 'B'
        name := ("API/Docs Discovery").data
        description := ("Find API documentation and developer resources.").data
        engines := [
          (engGoogle, [("site:<0> inurl:api OR inurl:docs").data]),
          (engBing, [("site:<0> inurl:api").data]),
          (engYandex, [("site:<0> & (api | docs)").data])] },
      { code := 'C'
        name := ("Directory Listings").data
        description := ("Find exposed directory listings.").data
        engines := [
          (engGoogle, [("intitle:\"index of\" \"<0>\"").data]),
          (engBing, [("intitle:\"index of\" \"<0>\"").data]),
          (engYandex, [("title:\"index of\" \"<0>\"").data])] }]
    precombinations := [
      { code := 'X', name := ("Infrastructure Sweep").data, expandsTo := ['A', 'B']
        description := ("Subdomains + APIs").data }]
    engineNuances := [
      (engBing, ("G: ip: finds neighbors on same IP.").data),
      (engYandex, ("G: rhost: reverse host for subdomain discovery.").data),
      (engGoogle, ("G: site:*.domain for wildcard subdomain.").data)] }

/-- Phase 5 menu data (`PHASE_MENUS[5]`). -/
def phaseMenu5 : PhaseMenuData :=
  { id := ("S5").data
    name := ("Filtered High-Signal").data
    purpose := ("Maximum filter strictness, authority sources only.").data
    buildingBlocks := [
      { code := 'A'
        name := ("Academic Authority Lock").data
        description := ("Only .edu, .ac.*, research institutions.").data
        engines := [
          (engGoogle, [("\"<0>\" (site:edu OR site:ac.* OR site:arxiv.org OR site:researchgate.net)").data]),
          (engBing, [("\"<0>\" (site:edu OR site:ac.*)").data]),
          (engYandex, [("\"<0>\" (site:*.edu | site:*.ac.*)").data])] },
      { code := 'B'
        name := ("Government Authority Lock").data
        description := ("Only .gov, .mil, official government sources.").data
        engines := [
          (engGoogle, [("\"<0>\" (site:gov OR site:gov.* OR site:mil)").data]),
          (engBing, [("\"<0>\" (site:gov OR site:gov.*)").data]),
          (engYandex, [("\"<0>\" (site:*.gov | site:*.mil)").data])] },
      { code := 'C'
        name := ("Technical Authority Lock").data
        description := ("GitHub, StackOverflow, official docs.").data
        engines := [
          (engGoogle, [("\"<0>\" (site:github.com OR site:stackoverflow.com OR site:developer.*)").data]),
          (engBing, [("\"<0>\" (site:github.com OR site:stackoverflow.com)").data]),
          (engYandex, [("\"<0>\" (site:github.com | site:stackoverflow.com)").data])] }]
    precombinations := [
      { code := 'X', name := ("All Authority").data, expandsTo := ['A', 'B', 'C']
        description := ("Academic + Gov + Tech").data }]
    engineNuances := [
      (engGoogle, ("G: Combine with date filters for authoritative recent.").data),
      (engBing, ("G: prefer: boosts but doesn\x27t exclude.").data),
      (engYandex, ("G: domain: for TLD-only filtering.").data)] }

/-- Phase 6 menu data (`PHASE_MENUS[6]`). -/
def phaseMenu6 : PhaseMenuData :=
  { id := ("S6").data
    name := ("Negative-Space").data
    purpose := ("Find failures, contradictions, criticism, what is missing.").data
    buildingBlocks := [
      { code := 'A'
        name := ("Failure/Problem Search").data
        description := ("Find discussions of problems, failures, issues.").data
        engines := [
          (engGoogle, [("\"<0>\" (failed OR failure OR problem OR issue OR bug)").data]),
          (engBing, [("\"<0>\" (problem OR issue OR failure)").data]),
          (engYandex, [("\"<0>\" & (problem | failure | bug)").data])] },
      { code := 'B'
        name := ("Criticism/Controversy").data
        description := ("Find critical perspectives and controversies.").data
        engines := [
          (engGoogle, [("\"<0>\" (criticism OR controversy OR debate OR questioned)").data]),
          (engBing, [("\"<0>\" (criticism OR controversy)").data]),
          (engYandex, [("\"<0>\" & (criticism | controversy)").data])] },
      { code := 'C'
        name := ("Exclude Dominant Sources").data
        description := ("Find obscure sources by excluding major ones.").data
        engines := [
          (engGoogle, [("\"<0>\" -site:wikipedia.org -site:britannica.com -site:medium.com").data]),
          (engBing, [("\"<0>\" NOT site:wikipedia.org NOT site:medium.com").data]),
          (engYandex, [("\"<0>\" -site:wikipedia.org -site:medium.com").data])] }]
    precombinations := [
      { code := 'X', name := ("Full Negative Space").data, expandsTo := ['A', 'B', 'C']
        description := ("Problems + Criticism + Obscure").data }]
    engineNuances := [
      (engGoogle, ("G: AROUND(n) to find terms near \x27problem\x27 or \x27failure\x27.").data),
      (engBing, ("G: NOT for exclusion, near: for proximity.").data),
      (engYandex, ("G: - prefix for exclusion.").data)] }

/-- Phase 7 menu data (`PHASE_MENUS[7]`). -/
def phaseMenu7 : PhaseMenuData :=
  { id := ("S7").data
    name := ("Temporal Evolution").data
    purpose := ("Historical analysis, time-bounded searches, evolution of topic.").data
    buildingBlocks := [
      { code := 'A'
        name := ("Recent Only (Last Year)").data
        description := ("Content from the last year only.").data
        engines := [
          (engGoogle, [("\"<0>\" after:2024-01-01").data]),
          (engBing, [("\"<0>\"").data]),
          (engYandex, [("\"<0>\" date:>20240101").data])] },
      { code := 'B'
        name := ("Historical (Pre-2020)").data
        description := ("Older content before recent hype cycles.").data
        engines := [
          (engGoogle, [("\"<0>\" before:2020-01-01").data]),
          (engBing, [("\"<0>\"").data]),
          (engYandex, [("\"<0>\" date:<20200101").data])] },
      { code := 'C'
        name := ("Wayback Machine").data
        description := ("Search Internet Archive for historical snapshots.").data
        engines := [
          (engArchive, [("<0>").data]),
          (engGoogle, [("site:web.archive.org \"<0>\"").data])] }]
    precombinations := [
      { code := 'X', name := ("Time Contrast").data, expandsTo := ['A', 'B']
        description := ("Compare recent vs historical").data }]
    engineNuances := [
      (engGoogle, ("G: before:/after: for date filtering.").data),
      (engBing, ("G: Use freshness parameter in API.").data),
      (engYandex, ("G: date: with comparison operators.").data),
      (engArchive, ("G: CDX API for programmatic access.").data)] }

/-- Phase 8 menu data (`PHASE_MENUS[8]`). -/
def phaseMenu8 : PhaseMenuData :=
  { id := ("S8").data
    name := ("Language/Regional Lateral").data
    purpose := ("Cross-language exploration, regional engines, non-English sources.").data
    buildingBlocks := [
      { code := 'A'
        name := ("Russian/CIS Sources").data
        description := ("Search Russian-language and CIS region sources.").data
        engines := [
          (engYandex, [("\"<0>\" lang:ru").data, ("\"<0>\" domain:ru").data]),
          (engGoogle, [("\"<0>\" site:ru").data])] },
      { code := 'B'
        name := ("Chinese Sources").data
        description := ("Search Chinese-language sources.").data
        engines := [
          (engBaidu, [("\"<0>\"").data]),
          (engGoogle, [("\"<0>\" site:cn").data])] },
      { code := 'C'
        name := ("European Sources").data
        description := ("Search European language sources.").data
        engines := [
          (engGoogle, [("\"<0>\" (site:de OR site:fr OR site:es OR site:it)").data]),
          (engYandex, [("\"<0>\" (domain:de | domain:fr | domain:es)").data])] },
      { code := 'D'
        name := ("Academic Cross-Language").data
        description := ("Academic sources in multiple languages.").data
        engines := [
          (engGoogle, [("\"<0>\" (site:edu.* OR site:ac.* OR site:uni-*)").data]),
          (engScholar, [("\"<0>\"").data])] }]
    precombinations := [
      { code := 'X', name := ("Global Sweep").data, expandsTo := ['A', 'B', 'C']
        description := ("All regional sources").data },
      { code := 'Y', name := ("Academic Global").data, expandsTo := ['A', 'D']
        description := ("Russian + Academic").data }]
    engineNuances := [
      (engYandex, ("G: Strongest for Russian/CIS, lang: and domain: operators.").data),
      (engBaidu, ("G: Required for Chinese sources, different operator syntax.").data),
      (engGoogle, ("G: site:TLD for regional filtering.").data),
      (engScholar, ("G: Cross-language academic search.").data)] }

/-- The `PHASE_MENUS` record, as a keyed lookup on the phase number. -/
def PHASE_MENUS (phase : Int) : Option PhaseMenuData :=
  if phase = 1 then some phaseMenu1
  else if phase = 2 then some phaseMenu2
  else if phase = 3 then some phaseMenu3
  else if phase = 4 then some phaseMenu4
  else if phase = 5 then some phaseMenu5
  else if phase = 6 then some phaseMenu6
  else if phase = 7 then some phaseMenu7
  else if phase = 8 then some phaseMenu8
  else none

/-- The read `PHASES[i]` with a JS-style out-of-bounds read yielding `none`. -/
def phaseListGet (i : Int) : Option Phase :=
  if 0 ≤ i then PHASES.get? i.toNat else none

/-- The lookup `getPhaseMenu(phase)`: the configured menu, or the minimal fallback menu
for undefined phases. -/
def getPhaseMenu (phase : Int) : PhaseMenu :=
  match PHASE_MENUS phase with
  | none =>
    { phase := phase
      id := 'S' :: (toString phase).data
      name := ((phaseListGet (phase - 1)).map Phase.name).getD (("Unknown").data)
      purpose := ((phaseListGet (phase - 1)).map Phase.purpose).getD (("Not defined").data)
      noiseFilters := NOISE_FILTERS
      buildingBlocks := []
      precombinations := []
      engineNuances := [] }
  | some d =>
    { phase := phase
      id := d.id
      name := d.name
      purpose := d.purpose
      noiseFilters := NOISE_FILTERS
      buildingBlocks := d.buildingBlocks
      precombinations := d.precombinations
      engineNuances := d.engineNuances }

/-- One constructed query (`Query`). -/
structure Query where
  engine : Str
  query : Str
  phase : Int
  blockCode : Char
  deriving DecidableEq

/-- The step `codes.replace(/[^A-Z]/g, "").split("")`: the uppercase letters. -/
def blockCodesOf (codes : Str) : List Char :=
  codes.filter (fun c => decide ('A' ≤ c ∧ c ≤ 'Z'))

/-- JS `Set.add`: append if absent, keep insertion order. -/
def insertUnique (l : List Char) (c : Char) : List Char :=
  if c ∈ l then l else l ++ [c]

/-- Precombination expansion into the insertion-ordered `expandedCodes` set. -/
def expandCodes (menu : PhaseMenu) (blockCodes : List Char) : List Char :=
  blockCodes.foldl (fun acc c =>
    match menu.precombinations.find? (fun p => p.code == c) with
    | some pre => pre.expandsTo.foldl insertUnique acc
    | none => insertUnique acc c) []

/-- Does `s` start with `pat`? -/
def startsWith : Str → Str → Bool
  | _, [] => true
  | [], _ :: _ => false
  | c :: s, p :: ps => c == p && startsWith s ps

/-- ECMAScript `GetSubstitution` for a regexp without capture groups:
the replacement string is scanned for dollar escapes — `$$` yields `$`,
`$&` yields the matched text, `` $` `` (dollar, backtick) yields the part
of the original subject before the match, `$'` (dollar, quote) the part
after it; any other dollar sequence is kept literally. -/
def getSubstitution (matched before after : Str) : Str → Str
  | [] => []
  | c :: rest =>
    if c = '$' then
      match rest with
      | [] => ['$']
      | d :: rest2 =>
        if d = '$' then '$' :: getSubstitution matched before after rest2
        else if d = '&' then matched ++ getSubstitution matched before after rest2
        else if d = Char.ofNat 96 then before ++ getSubstitution matched before after rest2
        else if d = Char.ofNat 39 then after ++ getSubstitution matched before after rest2
        else '$' :: d :: getSubstitution matched before after rest2
    else c :: getSubstitution matched before after rest

/-- Fuel-driven worker for `replaceAll`; each step consumes at least one
character of the subject string, so fuel `s.length` is always enough.
`pre` accumulates the already-scanned part of the original subject, which
the dollar escapes of the replacement string refer to. -/
def replaceAllF : Nat → Str → Str → Str → Str → Str
  | 0, _, s, _, _ => s
  | _ + 1, _, [], _, _ => []
  | f + 1, pre, c :: rest, pat, repl =>
    if pat ≠ [] ∧ startsWith (c :: rest) pat then
      getSubstitution pat pre ((c :: rest).drop pat.length) repl ++
        replaceAllF f (pre ++ pat) ((c :: rest).drop pat.length) pat repl
    else
      c :: replaceAllF f (pre ++ [c]) rest pat repl

/-- Global, left-to-right, non-rescanning replacement of the literal
pattern `pat` (the semantics of `String.replace` with a global regex made
of literal characters), with JS dollar-escape processing applied to the
replacement string. -/
def replaceAll (s pat repl : Str) : Str :=
  replaceAllF s.length [] s pat repl

/-- Fuel-driven worker for `replaceNumPH`; `pre` as in `replaceAllF`. -/
def replaceNumPHF : Nat → Str → Str → Str → Str
  | 0, _, s, _ => s
  | _ + 1, _, [], _ => []
  | f + 1, pre, c :: rest, repl =>
    if c = '<' ∧ rest.takeWhile Char.isDigit ≠ [] ∧
        (rest.dropWhile Char.isDigit).head? = some '>' then
      getSubstitution ('<' :: (rest.takeWhile Char.isDigit ++ ['>'])) pre
          ((rest.dropWhile Char.isDigit).tail) repl ++
        replaceNumPHF f (pre ++ '<' :: (rest.takeWhile Char.isDigit ++ ['>']))
          ((rest.dropWhile Char.isDigit).tail) repl
    else
      c :: replaceNumPHF f (pre ++ [c]) rest repl

/-- Global replacement of every numeric placeholder `<d+>` (the semantics
of `query.replace(/<\d+>/g, ...)`), with JS dollar-escape processing
applied to the replacement string. -/
def replaceNumPH (s repl : Str) : Str :=
  replaceNumPHF s.length [] s repl

/-- Fuel-driven worker for `literalReplaceAll`. -/
def literalReplaceAllF : Nat → Str → Str → Str → Str
  | 0, s, _, _ => s
  | _ + 1, [], _, _ => []
  | f + 1, c :: rest, pat, repl =>
    if pat ≠ [] ∧ startsWith (c :: rest) pat then
      repl ++ literalReplaceAllF f ((c :: rest).drop pat.length) pat repl
    else
      c :: literalReplaceAllF f rest pat repl

/-- Specification-side global replacement of the literal pattern `pat` by
exactly the text `repl` (no dollar-escape processing). -/
def literalReplaceAll (s pat repl : Str) : Str :=
  literalReplaceAllF s.length s pat repl

/-- Fuel-driven worker for `literalReplaceNumPH`. -/
def literalReplaceNumPHF : Nat → Str → Str → Str
  | 0, s, _ => s
  | _ + 1, [], _ => []
  | f + 1, c :: rest, repl =>
    if c = '<' ∧ rest.takeWhile Char.isDigit ≠ [] ∧
        (rest.dropWhile Char.isDigit).head? = some '>' then
      repl ++ literalReplaceNumPHF f (rest.dropWhile Char.isDigit).tail repl
    else
      c :: literalReplaceNumPHF f rest repl

/-- Specification-side global replacement of every numeric placeholder
`<d+>` by exactly the text `repl` (no dollar-escape processing). -/
def literalReplaceNumPH (s repl : Str) : Str :=
  literalReplaceNumPHF s.length s repl

/-- The placeholder text for topic slot `j`. -/
def placeholder (j : Nat) : Str := '<' :: ((toString j).data ++ ['>'])

/-- Lines 66–74 of the executor: sequential per-topic replacement of `<j>`
(in forEach order), then the `/<\d+>/g` fallback to the primary topic. -/
def substitutedQuery (template : Str) (topics : List Str) : Str :=
  replaceNumPH
    (topics.enum.foldl (fun q jt => replaceAll q (placeholder jt.1) jt.2) template)
    (topics.headD [])

/-- Line 77–79: append the hygiene clause when non-empty. -/
def hygAppend (q hyg : Str) : Str :=
  if hyg = [] then q else q ++ ' ' :: hyg

/-- The innermost loop body: one query pushed per topic index `i`
(the body does not depend on `i`). -/
def emitForTemplate (phase : Int) (code : Char) (engine : Str) (hyg : Str)
    (topics : List Str) (template : Str) : List Query :=
  (List.range topics.length).map (fun _ =>
    { engine := engine
      query := hygAppend (substitutedQuery template topics) hyg
      phase := phase
      blockCode := code })

/-- The production phase of `buildQueries` (before deduplication), in push
order. -/
def rawQueries (phase : Int) (topics : List Str) (codes : Str)
    (config : FraviaConfig) : List Query :=
  let menu := getPhaseMenu phase
  (expandCodes menu (blockCodesOf codes)).flatMap (fun code =>
    match menu.buildingBlocks.find? (fun b => b.code == code) with
    | none => []
    | some block =>
      block.engines.flatMap (fun et =>
        let hyg := getActiveFilters codes config et.1
        et.2.flatMap (fun template =>
          emitForTemplate phase code et.1 hyg topics template)))

/-- The dedup key `` `${q.engine}:${q.query}` ``. -/
def keyOf (q : Query) : Str := q.engine ++ ':' :: q.query

/-- The stateful `filter` with a `seen` set, processed in list order. -/
def dedupGo (seen : List Str) : List Query → List Query
  | [] => []
  | q :: rest =>
    if keyOf q ∈ seen then dedupGo seen rest
    else q :: dedupGo (keyOf q :: seen) rest

def dedupQueries (qs : List Query) : List Query := dedupGo [] qs

/-- The builder `buildQueries(phase, topics, codes, config)`. -/
def buildQueries (phase : Int) (topics : List Str) (codes : Str)
    (config : FraviaConfig) : List Query :=
  dedupQueries (rawQueries phase topics codes config)

/-- Does `s` end with `t`? -/
def endsWith (s t : Str) : Bool := startsWith s.reverse t.reverse

/-- Specification-side "keep only the first occurrence of each
(engine, query) key" filter, in production order. -/
def firstOccurrenceOnly : List Query → List Query
  | [] => []
  | q :: rest =>
    q :: firstOccurrenceOnly (rest.filter (fun r => decide (keyOf r ≠ keyOf q)))
termination_by l => l.length
decreasing_by
  have := List.length_filter_le (fun r => decide (keyOf r ≠ keyOf q)) rest
  simp only [List.length_cons]
  omega

/-- Specification-side substitution, following §4.1 step 5 of the design:
for every topic index `j` present in `topics`, replace all occurrences of
slot `j`'s placeholder by `topics[j]`; then replace any remaining numeric
placeholder by the primary topic `topics[0]`. -/
def specSubstitute (template : Str) (topics : List Str) : Str :=
  literalReplaceNumPH
    ((List.range topics.length).foldl
      (fun q j => literalReplaceAll q (placeholder j) (topics.getD j [])) template)
    (topics.getD 0 [])

/-- The hygiene clause list built from every default filter except the one
keyed `num`, for the dialect of engine `e`. -/
def clausesWithoutFilter (num : Str) (e : Str) : List Str :=
  ((defaultConfig.filters.filter (fun p => decide (p.1 ≠ num))).map
    (fun p => filterValue p.2 (targetEngine e))).filter (fun v => decide (v ≠ []))

/-- The hygiene clause omitting exactly the filter keyed `num`. -/
def hygieneWithoutFilter (num : Str) (e : Str) : Str :=
  joinSpace (clausesWithoutFilter num e)

theorem startsWith_self_append (p r : Str) : startsWith (p ++ r) p = true := by
  induction p with
  | nil => cases r <;> rfl
  | cons c cs ih => simp [startsWith, ih]

theorem endsWith_append (b s : Str) : endsWith (b ++ s) s = true := by
  unfold endsWith
  rw [List.reverse_append]
  exact startsWith_self_append s.reverse b.reverse

theorem mem_dedupGo {q : Query} :
    ∀ (qs : List Query) (seen : List Str), q ∈ dedupGo seen qs → q ∈ qs := by
  intro qs
  induction qs with
  | nil => intro seen h; simpa [dedupGo] using h
  | cons p rest ih =>
    intro seen h
    rw [dedupGo] at h
    by_cases hk : keyOf p ∈ seen
    · rw [if_pos hk] at h
      exact List.mem_cons_of_mem _ (ih _ h)
    · rw [if_neg hk] at h
      rcases List.mem_cons.mp h with h | h
      · exact h ▸ List.mem_cons_self _ _
      · exact List.mem_cons_of_mem _ (ih _ h)

theorem keyOf_notMem_of_mem_dedupGo {q : Query} :
    ∀ (qs : List Query) (seen : List Str), q ∈ dedupGo seen qs → keyOf q ∉ seen := by
  intro qs
  induction qs with
  | nil => intro seen h; simp [dedupGo] at h
  | cons p rest ih =>
    intro seen h
    rw [dedupGo] at h
    by_cases hk : keyOf p ∈ seen
    · rw [if_pos hk] at h
      exact ih _ h
    · rw [if_neg hk] at h
      rcases List.mem_cons.mp h with h | h
      · exact h ▸ hk
      · have := ih _ h
        intro hmem
        exact this (List.mem_cons_of_mem _ hmem)

theorem pairwise_keyOf_dedupGo :
    ∀ (qs : List Query) (seen : List Str),
      (dedupGo seen qs).Pairwise (fun a b => keyOf a ≠ keyOf b) := by
  intro qs
  induction qs with
  | nil => intro seen; simp [dedupGo]
  | cons p rest ih =>
    intro seen
    rw [dedupGo]
    by_cases hk : keyOf p ∈ seen
    · rw [if_pos hk]; exact ih _
    · rw [if_neg hk]
      refine List.pairwise_cons.mpr ⟨?_, ih _⟩
      intro b hb
      have := keyOf_notMem_of_mem_dedupGo _ _ hb
      intro he
      exact this (he ▸ List.mem_cons_self _ _)

theorem dedupGo_eq_firstOccurrenceOnly :
    ∀ (qs : List Query) (seen : List Str),
      dedupGo seen qs =
        firstOccurrenceOnly (qs.filter (fun q => decide (keyOf q ∉ seen))) := by
  intro qs
  induction qs with
  | nil => intro seen; simp [dedupGo, firstOccurrenceOnly]
  | cons p rest ih =>
    intro seen
    rw [dedupGo]
    by_cases hk : keyOf p ∈ seen
    · rw [if_pos hk, List.filter_cons, if_neg (by simpa using hk)]
      exact ih seen
    · rw [if_neg hk, List.filter_cons, if_pos (by simpa using hk)]
      rw [firstOccurrenceOnly, ih (keyOf p :: seen)]
      congr 2
      rw [List.filter_filter]
      apply List.filter_congr
      intro r _
      simp [List.mem_cons, not_or]

theorem dedupQueries_eq_firstOccurrenceOnly (qs : List Query) :
    dedupQueries qs = firstOccurrenceOnly qs := by
  rw [dedupQueries, dedupGo_eq_firstOccurrenceOnly]
  congr 1
  apply List.filter_eq_self.mpr
  intro q _
  simp

theorem mem_rawQueries {q : Query} {phase : Int} {topics : List Str}
    {codes : Str} {config : FraviaConfig}
    (h : q ∈ rawQueries phase topics codes config) :
    ∃ code block et template,
      (getPhaseMenu phase).buildingBlocks.find? (fun b => b.code == code) = some block ∧
      et ∈ block.engines ∧ template ∈ et.2 ∧ topics ≠ [] ∧
      q = { engine := et.1
            query := hygAppend (substitutedQuery template topics)
              (getActiveFilters codes config et.1)
            phase := phase
            blockCode := code } := by
  rw [rawQueries] at h
  rcases List.mem_flatMap.mp h with ⟨code, _, hq⟩
  refine ⟨code, ?_⟩
  rcases hfind : (getPhaseMenu phase).buildingBlocks.find? (fun b => b.code == code) with
    _ | block
  · rw [hfind] at hq
    simp at hq
  · rw [hfind] at hq
    rcases List.mem_flatMap.mp hq with ⟨et, het, hq⟩
    rcases List.mem_flatMap.mp hq with ⟨template, htpl, hq⟩
    rw [emitForTemplate] at hq
    rcases List.mem_map.mp hq with ⟨i, hi, hq⟩
    refine ⟨block, et, template, hfind, het, htpl, ?_, hq.symm⟩
    intro hnil
    rw [hnil] at hi
    simp at hi

theorem mem_buildQueries_raw {q : Query} {phase : Int} {topics : List Str}
    {codes : Str} {config : FraviaConfig}
    (h : q ∈ buildQueries phase topics codes config) :
    q ∈ rawQueries phase topics codes config :=
  mem_dedupGo _ _ h

theorem targetEngine_cases (e : Str) :
    targetEngine e = ("google").data ∨ targetEngine e = ("bing").data ∨
    targetEngine e = ("yandex").data ∨ targetEngine e = ("ddg").data := by
  unfold targetEngine
  by_cases h : e.map Char.toLower ∈ validEngines
  · simp only [if_pos h]
    simpa [validEngines] using h
  · simp [if_neg h]

theorem exclusions_codes_A (e : Str) :
    exclusions (("A").data) defaultConfig e = clausesWithoutFilter ['7'] e := rfl

theorem exclusions_codes_C (e : Str) :
    exclusions (("C").data) defaultConfig e = clausesWithoutFilter ['5'] e := rfl

theorem getActiveFilters_codes_A (e : Str) :
    getActiveFilters (("A").data) defaultConfig e = hygieneWithoutFilter ['7'] e := rfl

theorem getActiveFilters_codes_C (e : Str) :
    getActiveFilters (("C").data) defaultConfig e = hygieneWithoutFilter ['5'] e := rfl

theorem hygieneWithoutFilter_seven_ne_nil (e : Str) :
    hygieneWithoutFilter ['7'] e ≠ [] := by
  unfold hygieneWithoutFilter clausesWithoutFilter
  rcases targetEngine_cases e with h | h | h | h <;> rw [h] <;> decide

theorem hygieneWithoutFilter_five_ne_nil (e : Str) :
    hygieneWithoutFilter ['5'] e ≠ [] := by
  unfold hygieneWithoutFilter clausesWithoutFilter
  rcases targetEngine_cases e with h | h | h | h <;> rw [h] <;> decide

theorem substFold_enumFrom (g : Str → Nat → Str → Str) (topics : List Str) :
    ∀ (n : Nat) (template : Str),
      (topics.enumFrom n).foldl
        (fun q jt => g q jt.1 jt.2) template =
      (List.range topics.length).foldl
        (fun q j => g q (n + j) (topics.getD j [])) template := by
  induction topics with
  | nil => intro n template; rfl
  | cons a l ih =>
    intro n template
    rw [List.enumFrom_cons, List.foldl_cons, ih (n + 1)]
    rw [List.length_cons, List.range_succ_eq_map, List.foldl_cons, List.foldl_map]
    simp only [List.getD_cons_zero, List.getD_cons_succ, Nat.add_zero,
      Nat.add_succ, Nat.succ_add]

theorem getSubstitution_no_dollar (matched before after : Str) :
    ∀ (repl : Str), '$' ∉ repl → getSubstitution matched before after repl = repl := by
  intro repl
  induction repl with
  | nil => intro _; rfl
  | cons c rest ih =>
    intro h
    have hc : ¬ (c = '$') := by
      intro he
      apply h
      rw [he]
      exact List.mem_cons_self _ _
    rw [getSubstitution.eq_def]
    simp only [if_neg hc]
    rw [ih (fun hm => h (List.mem_cons_of_mem _ hm))]

theorem replaceAllF_no_dollar (pat repl : Str) (hrep : '$' ∉ repl) :
    ∀ (f : Nat) (pre s : Str),
      replaceAllF f pre s pat repl = literalReplaceAllF f s pat repl := by
  intro f
  induction f with
  | zero => intro pre s; rfl
  | succ f ih =>
    intro pre s
    cases s with
    | nil => rfl
    | cons c rest =>
      rw [replaceAllF, literalReplaceAllF]
      by_cases hm : pat ≠ [] ∧ startsWith (c :: rest) pat
      · rw [if_pos hm, if_pos hm,
          getSubstitution_no_dollar pat pre ((c :: rest).drop pat.length) repl hrep,
          ih]
      · rw [if_neg hm, if_neg hm, ih]

theorem replaceAll_no_dollar (s pat repl : Str) (hrep : '$' ∉ repl) :
    replaceAll s pat repl = literalReplaceAll s pat repl :=
  replaceAllF_no_dollar pat repl hrep s.length [] s

theorem replaceNumPHF_no_dollar (repl : Str) (hrep : '$' ∉ repl) :
    ∀ (f : Nat) (pre s : Str),
      replaceNumPHF f pre s repl = literalReplaceNumPHF f s repl := by
  intro f
  induction f with
  | zero => intro pre s; rfl
  | succ f ih =>
    intro pre s
    cases s with
    | nil => rfl
    | cons c rest =>
      rw [replaceNumPHF, literalReplaceNumPHF]
      by_cases hm : c = '<' ∧ rest.takeWhile Char.isDigit ≠ [] ∧
          (rest.dropWhile Char.isDigit).head? = some '>'
      · rw [if_pos hm, if_pos hm,
          getSubstitution_no_dollar ('<' :: (rest.takeWhile Char.isDigit ++ ['>'])) pre
            ((rest.dropWhile Char.isDigit).tail) repl hrep,
          ih]
      · rw [if_neg hm, if_neg hm, ih]

theorem replaceNumPH_no_dollar (s repl : Str) (hrep : '$' ∉ repl) :
    replaceNumPH s repl = literalReplaceNumPH s repl :=
  replaceNumPHF_no_dollar repl hrep s.length [] s

theorem enumFrom_snd_mem {α : Type} :
    ∀ (l : List α) (n : Nat) (jt : Nat × α), jt ∈ l.enumFrom n → jt.2 ∈ l := by
  intro l
  induction l with
  | nil => intro n jt h; simp [List.enumFrom] at h
  | cons a l ih =>
    intro n jt h
    rw [List.enumFrom_cons] at h
    rcases List.mem_cons.mp h with h | h
    · rw [h]
      exact List.mem_cons_self _ _
    · exact List.mem_cons_of_mem _ (ih (n + 1) jt h)

theorem foldl_subst_no_dollar :
    ∀ (l : List (Nat × Str)) (template : Str), (∀ jt ∈ l, '$' ∉ jt.2) →
      l.foldl (fun q jt => replaceAll q (placeholder jt.1) jt.2) template =
      l.foldl (fun q jt => literalReplaceAll q (placeholder jt.1) jt.2) template := by
  intro l
  induction l with
  | nil => intro template _; rfl
  | cons jt l ih =>
    intro template h
    rw [List.foldl_cons, List.foldl_cons,
      replaceAll_no_dollar template (placeholder jt.1) jt.2
        (h jt (List.mem_cons_self _ _)),
      ih _ (fun p hp => h p (List.mem_cons_of_mem _ hp))]

theorem substitutedQuery_eq_spec_of_no_dollar (template : Str) (topics : List Str)
    (hd : ∀ t ∈ topics, '$' ∉ t) :
    substitutedQuery template topics = specSubstitute template topics := by
  unfold substitutedQuery specSubstitute
  rw [foldl_subst_no_dollar topics.enum template
    (fun jt hjt => hd jt.2 (enumFrom_snd_mem topics 0 jt hjt))]
  have hh : '$' ∉ topics.headD [] := by
    cases topics with
    | nil => simp
    | cons a l => exact hd a (List.mem_cons_self _ _)
  rw [replaceNumPH_no_dollar _ _ hh]
  have h0 : topics.headD [] = topics.getD 0 [] := by cases topics <;> rfl
  rw [h0]
  congr 1
  have h := substFold_enumFrom
    (fun q j t => literalReplaceAll q (placeholder j) t) topics 0 template
  simp only [Nat.zero_add] at h
  exact h

theorem flatMap_nil_fun {α β : Type} (l : List α) :
    l.flatMap (fun _ => ([] : List β)) = [] := by
  induction l with
  | nil => rfl
  | cons a l ih => simp [List.flatMap_cons, ih]

theorem relaxedNums_append (c1 c2 : Str) :
    relaxedNums (c1 ++ c2) = relaxedNums c1 ++ relaxedNums c2 := by
  unfold relaxedNums
  rw [List.map_append, List.filterMap_append]

theorem exclusions_length_append_le (codes extra : Str) (config : FraviaConfig)
    (e : Str) :
    (exclusions (codes ++ extra) config e).length ≤
      (exclusions codes config e).length := by
  unfold exclusions
  apply List.Sublist.length_le
  apply List.Sublist.filter
  apply List.Sublist.map
  apply List.monotone_filter_right
  intro p hp
  simp only [decide_eq_true_eq] at hp ⊢
  intro hmem
  exact hp (by rw [relaxedNums_append]; exact List.mem_append_left _ hmem)

theorem getActiveFilters_congr {c1 c2 : Str}
    (h : relaxedNums c1 = relaxedNums c2) (config : FraviaConfig) (e : Str) :
    getActiveFilters c1 config e = getActiveFilters c2 config e := by
  unfold getActiveFilters exclusions
  simp only [h]

/-- Claim C3: for every input, the sequence returned by the construction
has no two elements with equal (engine, query) pair, and the output is
exactly the production-order list filtered to the first occurrence of each
(engine, query) key. -/
theorem claim_C3 (phase : Int) (topics : List Str) (codes : Str)
    (config : FraviaConfig) :
    (buildQueries phase topics codes config).Pairwise
      (fun a b => ¬ (a.engine = b.engine ∧ a.query = b.query)) ∧
    buildQueries phase topics codes config =
      firstOccurrenceOnly (rawQueries phase topics codes config) := by
  constructor
  · have h := pairwise_keyOf_dedupGo (rawQueries phase topics codes config) []
    refine List.Pairwise.imp ?_ h
    intro a b hk hab
    apply hk
    unfold keyOf
    rw [hab.1, hab.2]
  · exact dedupQueries_eq_firstOccurrenceOnly _

/-- Claim C7 counterexample: substitution does not always insert exactly
the topic's text — the replacement string goes through JS dollar-escape
processing, so for template "<0>" and topics ["$&"] the program leaves
"<0>" (the match replaces itself) while the exact-text specification
yields "$&". -/
theorem claim_C7_counterexample :
    substitutedQuery (("<0>").data) [("$&").data] ≠
      specSubstitute (("<0>").data) [("$&").data] ∧
    substitutedQuery (("<0>").data) [("$&").data] = ("<0>").data ∧
    specSubstitute (("<0>").data) [("$&").data] = ("$&").data := by
  decide

/-- Claim C7 (amended): whenever no topic text contains the character
"$" (so JS dollar-escape processing of the replacement is the identity),
the produced query text is obtained by substituting, for every topic
index `j` present in `topics`, all occurrences of placeholder `<j>` by
exactly the text of `topics[j]`, and then substituting any
still-unresolved numeric placeholder by exactly the text of `topics[0]`;
one such query is emitted per topic index. -/
theorem claim_C7_amended (template : Str) (topics : List Str) (phase : Int)
    (code : Char) (engine hyg : Str) (hd : ∀ t ∈ topics, '$' ∉ t) :
    substitutedQuery template topics = specSubstitute template topics ∧
    (emitForTemplate phase code engine hyg topics template).map (fun q => q.query) =
      List.replicate topics.length
        (hygAppend (specSubstitute template topics) hyg) := by
  have hsub := substitutedQuery_eq_spec_of_no_dollar template topics hd
  refine ⟨hsub, ?_⟩
  simp only [emitForTemplate, List.map_map, Function.comp_def]
  rw [List.map_const', List.length_range, hsub]

/-- Claim C7 witness: the dollar-free topic list ["x"] with phase 1 block
A's google template satisfies the amended substitution property. -/
theorem claim_C7_witness :
    substitutedQuery (("\"<0>\" OR \"<1>\" OR \"<2>\"").data) [("x").data] =
      specSubstitute (("\"<0>\" OR \"<1>\" OR \"<2>\"").data) [("x").data] ∧
    (emitForTemplate 1 'A' (("google").data) [] [("x").data]
        (("\"<0>\" OR \"<1>\" OR \"<2>\"").data)).map (fun q => q.query) =
      List.replicate ([("x").data] : List Str).length
        (hygAppend (specSubstitute (("\"<0>\" OR \"<1>\" OR \"<2>\"").data)
          [("x").data]) []) :=
  claim_C7_amended (("\"<0>\" OR \"<1>\" OR \"<2>\"").data) [("x").data] 1 'A'
    (("google").data) [] (by decide)

/-- Claim C8: per (block, engine, template) exactly one query is produced
per topic index before deduplication, all of them equal; concretely, phase
1 block B with topics ["alpha", "beta"] produces 8 raw queries that
collapse to 4 output entries at the dedup step. -/
theorem claim_C8 (phase : Int) (code : Char) (engine hyg : Str)
    (topics : List Str) (template : Str) :
    (emitForTemplate phase code engine hyg topics template).length = topics.length ∧
    emitForTemplate phase code engine hyg topics template =
      List.replicate topics.length
        { engine := engine
          query := hygAppend (substitutedQuery template topics) hyg
          phase := phase
          blockCode := code } ∧
    (rawQueries 1 [("alpha").data, ("beta").data] (("B").data) defaultConfig).length = 8 ∧
    (buildQueries 1 [("alpha").data, ("beta").data] (("B").data) defaultConfig).length = 4 := by
  refine ⟨?_, ?_, by decide, by decide⟩
  · rw [emitForTemplate, List.length_map, List.length_range]
  · rw [emitForTemplate, List.map_const', List.length_range]

/-- Claim C9: for every integer phase, the catalog lookup returns a menu
whose `phase` field equals the argument and whose noise-filter list is the
fixed 7-entry global table with codes s, f, t, u, c, l, a. -/
theorem claim_C9 (phase : Int) :
    (getPhaseMenu phase).phase = phase ∧
    (getPhaseMenu phase).noiseFilters = NOISE_FILTERS ∧
    NOISE_FILTERS.map (fun f => f.code) =
      [['s'], ['f'], ['t'], ['u'], ['c'], ['l'], ['a']] := by
  refine ⟨?_, ?_, by decide⟩
  · unfold getPhaseMenu
    cases PHASE_MENUS phase <;> rfl
  · unfold getPhaseMenu
    cases PHASE_MENUS phase <;> rfl

/-- Claim C10: the query builder is total; in particular, with an empty
topics list it returns the empty list (no query is emitted for any block,
engine or template) instead of failing. -/
theorem claim_C10 (phase : Int) (codes : Str) (config : FraviaConfig) :
    buildQueries phase [] codes config = [] ∧
    rawQueries phase [] codes config = [] := by
  have hraw : rawQueries phase [] codes config = [] := by
    simp only [rawQueries]
    rw [List.flatMap_eq_nil_iff]
    intro code _
    cases hfind : (getPhaseMenu phase).buildingBlocks.find? (fun b => b.code == code) with
    | none => rfl
    | some block =>
      rw [List.flatMap_eq_nil_iff]
      intro et _
      rw [List.flatMap_eq_nil_iff]
      intro template _
      rfl
  exact ⟨by rw [buildQueries, hraw]; rfl, hraw⟩

/-- Claim C4: the hygiene resolver lowercases the whole codes string, so
the uppercase block letter "A" also relaxes the AI-slop filter (key 7) and
"C" relaxes the Commercial filter (key 5): for every phase and topics,
each produced query ends with the hygiene clause that omits exactly that
filter's contribution. -/
theorem claim_C4 (phase : Int) (topics : List Str) (e : Str) :
    ((buildQueries phase topics (("A").data) defaultConfig).all
      (fun q => endsWith q.query (' ' :: hygieneWithoutFilter ['7'] q.engine))) = true ∧
    ((buildQueries phase topics (("C").data) defaultConfig).all
      (fun q => endsWith q.query (' ' :: hygieneWithoutFilter ['5'] q.engine))) = true ∧
    getActiveFilters (("A").data) defaultConfig e = hygieneWithoutFilter ['7'] e ∧
    getActiveFilters (("C").data) defaultConfig e = hygieneWithoutFilter ['5'] e ∧
    (defaultConfig.filters.filter (fun p => decide (p.1 = ['7']))).map
      (fun p => p.2.name) = [("AI_SLOP").data] ∧
    (defaultConfig.filters.filter (fun p => decide (p.1 = ['5']))).map
      (fun p => p.2.name) = [("COMMERCIAL").data] := by
  refine ⟨?_, ?_, getActiveFilters_codes_A e, getActiveFilters_codes_C e,
    by decide, by decide⟩
  · rw [List.all_eq_true]
    intro q hq
    rcases mem_rawQueries (mem_buildQueries_raw hq) with
      ⟨code, block, et, template, hfind, het, htpl, hne, hq'⟩
    subst hq'
    show endsWith
      (hygAppend (substitutedQuery template topics)
        (getActiveFilters (("A").data) defaultConfig et.1))
      (' ' :: hygieneWithoutFilter ['7'] et.1) = true
    rw [getActiveFilters_codes_A, hygAppend,
      if_neg (hygieneWithoutFilter_seven_ne_nil et.1)]
    exact endsWith_append _ _
  · rw [List.all_eq_true]
    intro q hq
    rcases mem_rawQueries (mem_buildQueries_raw hq) with
      ⟨code, block, et, template, hfind, het, htpl, hne, hq'⟩
    subst hq'
    show endsWith
      (hygAppend (substitutedQuery template topics)
        (getActiveFilters (("C").data) defaultConfig et.1))
      (' ' :: hygieneWithoutFilter ['5'] et.1) = true
    rw [getActiveFilters_codes_C, hygAppend,
      if_neg (hygieneWithoutFilter_five_ne_nil et.1)]
    exact endsWith_append _ _

/-- Claim C5: the number of filters contributing to the hygiene clause is
non-increasing as more relax letters are appended to the codes string, and
the empty codes string leaves all 7 default filters active. -/
theorem claim_C5 (codes extra engine : Str) :
    (exclusions (codes ++ extra) defaultConfig engine).length ≤
      (exclusions codes defaultConfig engine).length ∧
    (exclusions ([]) defaultConfig engine).length = 7 ∧
    exclusions ([]) defaultConfig engine =
      defaultConfig.filters.map (fun p => filterValue p.2 (targetEngine engine)) ∧
    getActiveFilters ([]) defaultConfig engine =
      joinSpace
        (defaultConfig.filters.map (fun p => filterValue p.2 (targetEngine engine))) := by
  have hex : exclusions ([]) defaultConfig engine =
      defaultConfig.filters.map (fun p => filterValue p.2 (targetEngine engine)) := by
    unfold exclusions
    rcases targetEngine_cases engine with h | h | h | h <;> simp only [h] <;> decide
  refine ⟨exclusions_length_append_le codes extra defaultConfig engine, ?_, hex, ?_⟩
  · rw [hex, List.length_map]
    decide
  · rw [getActiveFilters, hex]

/-- Claim C6: for a phase number outside the configured range 1..8, the
catalog degrades to a well-formed menu with empty building-block and
precombination sets, and construction returns the empty sequence. -/
theorem claim_C6 (phase : Int) (topics : List Str) (codes : Str)
    (houtside : phase < 1 ∨ 8 < phase) (htopics : topics ≠ []) (hcodes : codes ≠ []) :
    buildQueries phase topics codes defaultConfig = [] ∧
    (getPhaseMenu phase).buildingBlocks = [] ∧
    (getPhaseMenu phase).precombinations = [] ∧
    (getPhaseMenu phase).phase = phase ∧
    (getPhaseMenu phase).noiseFilters = NOISE_FILTERS := by
  have hnone : PHASE_MENUS phase = none := by
    unfold PHASE_MENUS
    rcases houtside with h | h <;> split_ifs <;> first | rfl | omega
  have hmenu : getPhaseMenu phase =
      { phase := phase
        id := 'S' :: (toString phase).data
        name := ((phaseListGet (phase - 1)).map Phase.name).getD (("Unknown").data)
        purpose := ((phaseListGet (phase - 1)).map Phase.purpose).getD (("Not defined").data)
        noiseFilters := NOISE_FILTERS
        buildingBlocks := []
        precombinations := []
        engineNuances := [] } := by
    unfold getPhaseMenu
    rw [hnone]
  have hraw : rawQueries phase topics codes defaultConfig = [] := by
    simp only [rawQueries, hmenu]
    rw [List.flatMap_eq_nil_iff]
    intro code _
    rfl
  refine ⟨?_, by rw [hmenu], by rw [hmenu], by rw [hmenu], by rw [hmenu]⟩
  rw [buildQueries, hraw]
  rfl

/-- Claim C6 witness: the unknown phase 999 with a non-empty topic list
and non-empty codes yields the empty sequence and the degraded menu. -/
theorem claim_C6_witness :
    buildQueries 999 [("x").data] (("A").data) defaultConfig = [] ∧
    (getPhaseMenu 999).buildingBlocks = [] ∧
    (getPhaseMenu 999).precombinations = [] ∧
    (getPhaseMenu 999).phase = 999 ∧
    (getPhaseMenu 999).noiseFilters = NOISE_FILTERS :=
  claim_C6 999 [("x").data] (("A").data) (by decide) (by decide) (by decide)

theorem buildQueries_codes_congr (phase : Int) (topics : List Str)
    {c1 c2 : Str} (config : FraviaConfig)
    (hrelax : relaxedNums c1 = relaxedNums c2)
    (hexp : expandCodes (getPhaseMenu phase) (blockCodesOf c1) =
      expandCodes (getPhaseMenu phase) (blockCodesOf c2)) :
    buildQueries phase topics c1 config = buildQueries phase topics c2 config := by
  unfold buildQueries
  congr 1
  simp only [rawQueries, hexp]
  simp only [getActiveFilters_congr hrelax config]

/-- Claim C1 counterexample: for phase 1, topics ["x"], codes "A", the
google query of block A is not the filled template followed by the full
default hygiene clause of all 7 filters — because "A" lowercased relaxes
filter 7, whose google clause is therefore missing. -/
theorem claim_C1_counterexample :
    ((buildQueries 1 [("x").data] (("A").data) defaultConfig).filter
      (fun q => decide (q.engine = ("google").data))).map (fun q => q.query) ≠
    [("\"x\" OR \"x\" OR \"x\"").data ++ ' ' ::
      joinSpace (defaultConfig.filters.map (fun p => p.2.google))] := by
  decide

/-- Claim C1 (amended): for phase 1, topics ["x"], codes "A", the google
query of block A is the template with every slot filled by "x", a single
space, and the hygiene clause of the six filters other than filter 7
(AI-slop), in filter-table order, space-joined — filter 7 is relaxed
because the resolver lowercases the codes string and "A" becomes "a". -/
theorem claim_C1_amended :
    ((buildQueries 1 [("x").data] (("A").data) defaultConfig).filter
      (fun q => decide (q.engine = ("google").data))).map (fun q => q.query) =
    [("\"x\" OR \"x\" OR \"x\"").data ++ ' ' ::
      hygieneWithoutFilter ['7'] (("google").data)] := by
  decide

/-- Claim C2 counterexample: at phase 1 with topics ["x"], the (engine,
query) pairs produced for codes "X" are not all among those produced for
codes "AB": the "AB" call additionally relaxes the AI-slop filter (the
lowercased "a"), so every query's hygiene clause differs. -/
theorem claim_C2_counterexample :
    (((buildQueries 1 [("x").data] (("X").data) defaultConfig).map
        (fun q => (q.engine, q.query))).all
      (fun p => ((buildQueries 1 [("x").data] (("AB").data) defaultConfig).map
        (fun q => (q.engine, q.query))).contains p)) = false := by
  decide

/-- Claim C2 (amended): for the phases whose menu has precombination X
expanding to exactly A and B (phases 1, 4 and 7), and for every topics
list and configuration, construction with codes "Xa" (X plus the hygiene
relaxation that "AB" causes implicitly) and with codes "AB" produce
identical output sequences; with plain "X" the sets differ only because
lowercasing "AB" additionally relaxes the AI-slop filter. -/
theorem claim_C2_amended (topics : List Str) (config : FraviaConfig) :
    buildQueries 1 topics (("Xa").data) config =
      buildQueries 1 topics (("AB").data) config ∧
    buildQueries 4 topics (("Xa").data) config =
      buildQueries 4 topics (("AB").data) config ∧
    buildQueries 7 topics (("Xa").data) config =
      buildQueries 7 topics (("AB").data) config := by
  refine ⟨?_, ?_, ?_⟩ <;>
    exact buildQueries_codes_congr _ topics config (by decide) (by decide)
